import Mathlib

/-!
Shallow embedding of `src/script.js`, the single script of the portfolio
repository, together with proofs about its rendering, pagination, gallery,
lightbox, smooth-scroll and data-loading logic.

The script is DOM-coupled JavaScript; the embedding below translates each
observable state transformation of each function into a pure Lean function over
explicit state records:

* `escapeHtml` (script.js 364-368) assigns `div.textContent` and reads back
  `div.innerHTML`; the embedding is the HTML text-node fragment serialization
  that this round trip performs (`&`, U+00A0, `<`, `>` become character
  references, everything else is unchanged).
* `loadCodeProjects` / `setupLoadMore` (153-200) act on the project grid and
  the `displayedProjectCount` counter; the embedding carries the counter, the
  ordered list of rendered cards (forEach index paired with the project) and
  the visibility of the load-more control.
* `setupGallery` / `openLightbox` / `setupLightboxControls` (205-359) act on
  the gallery grid and the lightbox globals; the embedding carries the
  lightbox source list, the current index (a JavaScript number, hence `Int`)
  and the open flag.
* `setupSmoothScroll` (242-262) reacts to an anchor click; the embedding maps
  the href of the anchor and the element geometry of the page to the observable outcome
  (whether the default jump was suppressed and which scroll was issued).
* `loadData` (22-41) awaits three JSON bodies sequentially inside one
  try/catch; the embedding takes the three parse outcomes as `Except` values
  and returns the final global state, the list of downstream calls made, and
  whether the error path ran.
-/

namespace Portfolio

/-- An artwork entry as read from `art.json` (spec section 3: ArtItem). -/
structure ArtItem where
  image : String
  title : String
  year : String
  deriving DecidableEq

/-- The shape of `art.json`: hero images and artworks (spec: ArtCatalog). -/
structure ArtCatalog where
  heroImages : List ArtItem
  artworks : List ArtItem
  deriving DecidableEq

/-- A coding project entry as read from `project.json` (spec: Project). -/
structure Project where
  title : String
  description : String
  technologies : List String
  link : Option String
  deriving DecidableEq

/-- The shape of `project.json` (spec: ProjectCatalog). -/
structure ProjectCatalog where
  projects : List Project
  deriving DecidableEq

/-- The shape of `links.json` (spec: LinksConfig). -/
structure LinksConfig where
  github : String
  resume : String
  deriving DecidableEq

/-- The double-quote character, written by code point to keep quoting plain. -/
def dq : Char := Char.ofNat 34

/-- The single-quote character, written by code point. -/
def sq : Char := Char.ofNat 39

/-- The no-break space character U+00A0, which the HTML text-node fragment
serialization also turns into a character reference. -/
def nbspChar : Char := Char.ofNat 160

/-- The HTML text-node serialization of one character. `escapeHtml` in
script.js (lines 364-368) assigns the input to `div.textContent` and reads
back `div.innerHTML`; per the HTML fragment-serialization algorithm this
replaces `&`, U+00A0, `<` and `>` by character references and leaves every
other character (including both quote characters) unchanged. -/
def escapeCharL (c : Char) : List Char :=
  if c = '&' then ['&', 'a', 'm', 'p', ';']
  else if c = nbspChar then ['&', 'n', 'b', 's', 'p', ';']
  else if c = '<' then ['&', 'l', 't', ';']
  else if c = '>' then ['&', 'g', 't', ';']
  else [c]

/-- Character-list form of the text-node serialization. -/
def escapeChars : List Char → List Char
  | [] => []
  | c :: cs => escapeCharL c ++ escapeChars cs

/-- `escapeHtml` from script.js lines 364-368, as the text-node fragment
serialization its `textContent` / `innerHTML` round trip performs. -/
def escapeHtml (text : String) : String :=
  String.mk (escapeChars text.data)

/-- HTML character-data decoding: the inverse direction performed by an HTML
parser when it turns character data (with the references `escapeChar` can
emit) back into text. Used to state that the serialization is faithful. -/
def decodeChars : List Char → List Char
  | [] => []
  | c :: rest =>
    if c = '&' then
      match rest with
      | 'a' :: 'm' :: 'p' :: ';' :: r => '&' :: decodeChars r
      | 'l' :: 't' :: ';' :: r => '<' :: decodeChars r
      | 'g' :: 't' :: ';' :: r => '>' :: decodeChars r
      | 'n' :: 'b' :: 's' :: 'p' :: ';' :: r => nbspChar :: decodeChars r
      | r => c :: decodeChars r
    else c :: decodeChars rest

/-- One step of an HTML-tokenizer model for the inside of a start tag: reads
a whitespace-separated list of `name="value"` attributes (also accepting a
bare name or an unquoted value, as the HTML tokenizer does), decoding
character references inside quoted values. The fuel argument bounds the
recursion. -/
def parseAttrsAux : Nat → List Char → List (String × String)
  | 0, _ => []
  | fuel + 1, input =>
    match input.dropWhile (fun c => c == ' ') with
    | [] => []
    | c :: rest =>
      let nameChars := (c :: rest).takeWhile (fun d => !(d == '=') && !(d == ' '))
      let afterName := (c :: rest).drop nameChars.length
      match afterName with
      | '=' :: afterEq =>
        match afterEq with
        | v :: valTail =>
          if v = dq then
            let valChars := valTail.takeWhile (fun d => !(d == dq))
            let afterVal := valTail.drop (valChars.length + 1)
            (String.mk nameChars, String.mk (decodeChars valChars)) :: parseAttrsAux fuel afterVal
          else
            let valChars := (v :: valTail).takeWhile (fun d => !(d == ' '))
            let afterVal := (v :: valTail).drop valChars.length
            (String.mk nameChars, String.mk (decodeChars valChars)) :: parseAttrsAux fuel afterVal
        | [] => [(String.mk nameChars, "")]
      | _ => (String.mk nameChars, "") :: parseAttrsAux fuel afterName

/-- How a browser reads an attribute list out of a start tag: the tokenizer
model above with enough fuel for the whole input. -/
def parseAttrs (s : String) : List (String × String) :=
  parseAttrsAux (s.data.length + 1) s.data

/-- The `src`/`alt` attribute text that `loadFeaturedArt` (script.js line
138) interpolates into the img tag of a featured art card:
`src="` + escapeHtml(art.image) + `" alt="` + escapeHtml(art.title) + `"`. -/
def imgCardAttrs (art : ArtItem) : String :=
  "src=\"" ++ escapeHtml art.image ++ "\" alt=\"" ++ escapeHtml art.title ++ "\""

/-- `projectsPerLoad` from script.js line 9. -/
def projectsPerLoad : Nat := 6

/-- Observable state of the project grid: the `displayedProjectCount`
global (script.js line 8), the rendered cards in DOM order (each card is
determined by the forEach index and the project whose fields it shows), and
whether the load-more control is hidden (`display: none`). -/
structure GridState where
  displayedCount : Nat
  grid : List (Nat × Project)
  loadMoreHidden : Bool
  deriving DecidableEq

/-- `loadCodeProjects` from script.js lines 153-187. On `initial` the grid is
cleared first; then every project of `projects.slice(0, displayedCount)`
whose forEach index satisfies `initial || index >= displayedCount -
projectsPerLoad` is appended as a card; finally the load-more control is
hidden exactly when `displayedCount >= projects.length`. The counter only
ever holds 6, 12, 18, ..., so the Nat subtraction coincides with the
number subtraction of the script at every reachable state. -/
def loadCodeProjects (projects : List Project) (initial : Bool) (s : GridState) : GridState :=
  let projectsToShow := projects.take s.displayedCount
  let newCards := projectsToShow.enum.filter
    (fun p => initial || decide (p.1 ≥ s.displayedCount - projectsPerLoad))
  { displayedCount := s.displayedCount
    grid := (if initial then [] else s.grid) ++ newCards
    loadMoreHidden := decide (s.displayedCount ≥ projects.length) }

/-- The grid state before any render: `displayedProjectCount = 6` (script.js
line 8), nothing rendered, load-more control not yet hidden. -/
def initialGridState : GridState :=
  { displayedCount := 6, grid := [], loadMoreHidden := false }

/-- The initial full render `loadCodeProjects(true)` issued by `loadData`
(script.js line 35). -/
def initLoad (projects : List Project) : GridState :=
  loadCodeProjects projects true initialGridState

/-- One activation of the load-more control (script.js lines 195-198):
`displayedProjectCount += projectsPerLoad` and then `loadCodeProjects()`
with `initial = false`. -/
def clickLoadMore (projects : List Project) (s : GridState) : GridState :=
  loadCodeProjects projects false
    { s with displayedCount := s.displayedCount + projectsPerLoad }

/-- The grid state after the initial load followed by `n` load-more
activations. -/
def afterClicks (projects : List Project) : Nat → GridState
  | 0 => initLoad projects
  | n + 1 => clickLoadMore projects (afterClicks projects n)

/-- The grid states reachable through the UI: the initial load, followed by
load-more activations, each possible only while the load-more control is
visible (a control with `display: none` cannot be clicked). -/
inductive Reachable (projects : List Project) : GridState → Prop
  | init : Reachable projects (initLoad projects)
  | click {s : GridState} : Reachable projects s → s.loadMoreHidden = false →
      Reachable projects (clickLoadMore projects s)

/-- Observable lightbox state: the `currentLightboxSource` and
`currentLightboxIndex` globals (script.js lines 267-268) and whether the
image modal is shown (the negation of its `hidden` class). The index is a
JavaScript number, embedded as `Int`. -/
structure LightboxState where
  source : List ArtItem
  index : Int
  isOpen : Bool
  deriving DecidableEq

/-- `openLightbox` from script.js lines 270-281: store the source and index,
show the modal. -/
def openLightbox (dataSource : List ArtItem) (index : Int) (_s : LightboxState) : LightboxState :=
  { source := dataSource, index := index, isOpen := true }

/-- The `closeLightbox` closure from script.js lines 326-330: hide the
modal. -/
def closeLightbox (s : LightboxState) : LightboxState :=
  { s with isOpen := false }

/-- The `nextImage` closure from script.js lines 332-336:
`currentLightboxIndex = (currentLightboxIndex + 1) % currentLightboxSource.length`. -/
def nextImage (s : LightboxState) : LightboxState :=
  { s with index := (s.index + 1) % (s.source.length : Int) }

/-- The `prevImage` closure from script.js lines 338-342:
`currentLightboxIndex = (currentLightboxIndex - 1 + currentLightboxSource.length) % currentLightboxSource.length`. -/
def prevImage (s : LightboxState) : LightboxState :=
  { s with index := (s.index - 1 + (s.source.length : Int)) % (s.source.length : Int) }

/-- The keydown listener from script.js lines 352-358: only when the modal
is not hidden, Escape closes, ArrowRight goes to the next image, ArrowLeft
to the previous; each check is made in turn against the same key. -/
def handleKeydown (key : String) (s : LightboxState) : LightboxState :=
  if s.isOpen then
    let s1 := if key = "Escape" then closeLightbox s else s
    let s2 := if key = "ArrowRight" then nextImage s1 else s1
    let s3 := if key = "ArrowLeft" then prevImage s2 else s2
    s3
  else s

/-- The `allArt` sequence that `setupGallery` (script.js line 214) rebuilds
on every gallery open: heroImages followed by artworks. -/
def fullGallery (art : ArtCatalog) : List ArtItem :=
  art.heroImages ++ art.artworks

/-- One gallery grid cell created by `setupGallery` (script.js lines
216-222): the item it shows and the `(allArt, index)` pair its click handler
passes to `openLightbox`. -/
structure GalleryThumb where
  item : ArtItem
  clickSource : List ArtItem
  clickIndex : Nat
  deriving DecidableEq

/-- The gallery grid produced by one open of the gallery modal (script.js
lines 212-222): `allArt` is recomputed, the grid is cleared and one cell is
appended per item in order. -/
def openGallery (art : ArtCatalog) : List GalleryThumb :=
  (fullGallery art).enum.map (fun p => ⟨p.2, fullGallery art, p.1⟩)

/-- Clicking a gallery cell (script.js line 220) calls
`openLightbox(allArt, index)` with the data stored in the cell. -/
def clickGalleryThumb (t : GalleryThumb) (s : LightboxState) : LightboxState :=
  openLightbox t.clickSource (t.clickIndex : Int) s

/-- The page geometry the smooth-scroll handler consults: the navigation
rendered height of the navigation bar when a navbar element exists, and the `offsetTop` of
each element findable by an id selector such as `#about`. -/
structure Page where
  navbarHeight : Option Int
  anchorTargets : List (String × Int)
  deriving DecidableEq

/-- `document.querySelector(targetId)` restricted to what the handler needs:
the `offsetTop` of the matched element, or none when nothing matches. -/
def querySelectorTop (page : Page) (sel : String) : Option Int :=
  (page.anchorTargets.find? (fun a => decide (a.1 = sel))).map (fun a => a.2)

/-- A `window.scrollTo` call as issued by the handler. -/
structure ScrollCmd where
  top : Int
  behavior : String
  deriving DecidableEq

/-- The observable outcome of one anchor-click activation: whether
`e.preventDefault()` ran and which scroll, if any, was issued. -/
structure ClickResult where
  defaultPrevented : Bool
  scrolled : Option ScrollCmd
  deriving DecidableEq

/-- The `targetId.startsWith` hash test from script.js line 246, evaluated on
the character list so that it computes by kernel reduction. -/
def startsWithHash (s : String) : Bool :=
  match s.data with
  | [] => false
  | c :: _ => c == '#'

/-- The anchor click handler from `setupSmoothScroll` (script.js lines
244-260). `href = none` models a missing href attribute; a missing or empty
href, or one not starting with `#`, returns before `preventDefault`; a bare
`#` returns right after it; otherwise the target is looked up and, when
found, a smooth scroll to `offsetTop - navHeight` is issued, where
`navHeight` is the navbar height or 0 when the navbar is absent. -/
def handleAnchorClick (page : Page) (href : Option String) : ClickResult :=
  match href with
  | none => { defaultPrevented := false, scrolled := none }
  | some targetId =>
    if targetId = "" ∨ startsWithHash targetId = false then
      { defaultPrevented := false, scrolled := none }
    else if targetId = "#" then
      { defaultPrevented := true, scrolled := none }
    else
      match querySelectorTop page targetId with
      | none => { defaultPrevented := true, scrolled := none }
      | some top =>
        let navHeight := page.navbarHeight.getD 0
        { defaultPrevented := true,
          scrolled := some { top := top - navHeight, behavior := "smooth" } }

/-- The process-wide data globals `artData` and `projectData` (script.js
lines 6-7). -/
structure AppState where
  artData : ArtCatalog
  projectData : ProjectCatalog
  deriving DecidableEq

/-- The observable outcome of one `loadData` run: the globals afterwards,
the downstream functions invoked in order, and whether the catch branch
logged an error. -/
structure LoadResult where
  state : AppState
  invoked : List String
  errorLogged : Bool
  deriving DecidableEq

/-- `loadData` from script.js lines 22-41, for a run in which all three
fetches resolved: the three `response.json()` parse outcomes are consumed in
order inside the try block, each successful parse immediately replaces the
corresponding global, and the first failure jumps to the catch branch, whose
only effect is the `console.error` log. Only on full success are
`updateLinks`, `loadCodeProjects(true)`, `loadFeaturedArt` and `animateHero`
invoked, in that order. -/
def loadData (s : AppState) (artRes : Except String ArtCatalog)
    (projRes : Except String ProjectCatalog)
    (linksRes : Except String LinksConfig) : LoadResult :=
  match artRes with
  | .error _ => { state := s, invoked := [], errorLogged := true }
  | .ok art =>
    let s1 : AppState := { s with artData := art }
    match projRes with
    | .error _ => { state := s1, invoked := [], errorLogged := true }
    | .ok proj =>
      let s2 : AppState := { s1 with projectData := proj }
      match linksRes with
      | .error _ => { state := s2, invoked := [], errorLogged := true }
      | .ok _ =>
        { state := s2
          invoked := ["updateLinks", "loadCodeProjects", "loadFeaturedArt", "animateHero"]
          errorLogged := false }

/-- A generic project used to build concrete catalogs in witnesses. -/
def demoProject : Project :=
  { title := "p", description := "d", technologies := ["t"], link := none }

/-- A ten-project catalog, the size used in the pagination
scenario of the spec. -/
def tenProjects : List Project := List.replicate 10 demoProject

/-- An artwork whose image field carries a quote-escape payload: the value
contains no `<` or `>` at all, only double quotes. -/
def quoteBreakArt : ArtItem :=
  { image := "\" onerror=\"alert(1)", title := "x", year := "2024" }

/-- Builds a one-letter artwork for concrete galleries. -/
def mkArt (s : String) : ArtItem :=
  { image := s, title := s, year := s }

/-- The five-item catalog from the gallery scenario of the spec:
heroImages A, B, C and artworks D, E. -/
def demoCatalog : ArtCatalog :=
  { heroImages := [mkArt "A", mkArt "B", mkArt "C"]
    artworks := [mkArt "D", mkArt "E"] }

/-- The lightbox before anything was opened (script.js lines 267-268). -/
def emptyLightbox : LightboxState :=
  { source := [], index := 0, isOpen := false }

/-- An open lightbox over a single-item source. -/
def oneItemLightbox : LightboxState :=
  { source := [mkArt "A"], index := 0, isOpen := true }

/-- A page with no navbar and no anchor targets. -/
def emptyPage : Page :=
  { navbarHeight := none, anchorTargets := [] }

/-- A page with an 80px navbar and one section at offsetTop 500. -/
def aboutPage : Page :=
  { navbarHeight := some 80, anchorTargets := [("#about", 500)] }

/-- A starting global state for `loadData` runs: both catalogs empty, as at
script.js lines 6-7. -/
def emptyApp : AppState :=
  { artData := { heroImages := [], artworks := [] }, projectData := ⟨[]⟩ }

/-- A freshly parsed art catalog, distinct from the empty one. -/
def parsedArt : ArtCatalog :=
  { heroImages := [mkArt "A"], artworks := [] }

/-- A freshly parsed project catalog, distinct from the empty one. -/
def parsedProjects : ProjectCatalog := ⟨[demoProject]⟩

end Portfolio

namespace Portfolio

theorem decodeChars_escapeCharL (c : Char) (tail : List Char) :
    decodeChars (escapeCharL c ++ tail) = c :: decodeChars tail := by
  by_cases h1 : c = '&'
  · subst h1; rfl
  by_cases h2 : c = nbspChar
  · subst h2; rfl
  by_cases h3 : c = '<'
  · subst h3; rfl
  by_cases h4 : c = '>'
  · subst h4; rfl
  have hd : escapeCharL c = [c] := by simp [escapeCharL, h1, h2, h3, h4]
  rw [hd, List.singleton_append, decodeChars.eq_def]
  simp only [if_neg h1]

theorem decodeChars_escapeChars (l : List Char) :
    decodeChars (escapeChars l) = l := by
  induction l with
  | nil => rfl
  | cons c cs ih => rw [escapeChars, decodeChars_escapeCharL, ih]

theorem escapeChars_no_angle (l : List Char) :
    ∀ c ∈ escapeChars l, c ≠ '<' ∧ c ≠ '>' := by
  induction l with
  | nil => simp [escapeChars]
  | cons c cs ih =>
    intro x hx
    rw [escapeChars] at hx
    rcases List.mem_append.mp hx with h | h
    · revert h
      unfold escapeCharL
      split_ifs with h1 h2 h3 h4 <;> intro h <;> simp at h
      · rcases h with rfl | rfl | rfl | rfl | rfl <;> exact ⟨by decide, by decide⟩
      · rcases h with rfl | rfl | rfl | rfl | rfl | rfl <;> exact ⟨by decide, by decide⟩
      · rcases h with rfl | rfl | rfl | rfl <;> exact ⟨by decide, by decide⟩
      · rcases h with rfl | rfl | rfl | rfl <;> exact ⟨by decide, by decide⟩
      · subst h; exact ⟨h3, h4⟩
    · exact ih x h

theorem count_escapeCharL_dq (c : Char) :
    (escapeCharL c).count dq = [c].count dq := by
  unfold escapeCharL
  split_ifs with h1 h2 h3 h4 <;> subst_vars <;> simp [List.count_cons, List.count_nil] <;> decide

theorem count_escapeCharL_sq (c : Char) :
    (escapeCharL c).count sq = [c].count sq := by
  unfold escapeCharL
  split_ifs with h1 h2 h3 h4 <;> subst_vars <;> simp [List.count_cons, List.count_nil] <;> decide

theorem count_escapeChars_dq (l : List Char) :
    (escapeChars l).count dq = l.count dq := by
  induction l with
  | nil => rfl
  | cons c cs ih =>
    rw [escapeChars, List.count_append, ih, count_escapeCharL_dq]
    simp [List.count_cons]
    omega

theorem count_escapeChars_sq (l : List Char) :
    (escapeChars l).count sq = l.count sq := by
  induction l with
  | nil => rfl
  | cons c cs ih =>
    rw [escapeChars, List.count_append, ih, count_escapeCharL_sq]
    simp [List.count_cons]
    omega

theorem escapeChars_id (l : List Char)
    (h : ∀ c ∈ l, c ≠ '&' ∧ c ≠ nbspChar ∧ c ≠ '<' ∧ c ≠ '>') :
    escapeChars l = l := by
  induction l with
  | nil => rfl
  | cons c cs ih =>
    have hc := h c (List.mem_cons_self c cs)
    have hd : escapeCharL c = [c] := by
      simp [escapeCharL, hc.1, hc.2.1, hc.2.2.1, hc.2.2.2]
    rw [escapeChars, hd, List.singleton_append, ih]
    intro x hx
    exact h x (List.mem_cons_of_mem c hx)

/-- C9: escapeHtml returns the HTML text-node serialization of its input:
decoding the character references recovers the input exactly, no raw angle
bracket survives (so ampersand, less-than and greater-than are carried as
references), and both quote characters pass through unchanged (their counts
are preserved, and any input free of the replaced characters is returned
verbatim, quotes included) -- which is why an escaped value placed inside a
quoted attribute position can still contain the surrounding quote
character. -/
theorem c9_escapeHtml_text_serialization (s : String) :
    decodeChars (escapeHtml s).data = s.data ∧
    (∀ c ∈ (escapeHtml s).data, c ≠ '<' ∧ c ≠ '>') ∧
    (escapeHtml s).data.count dq = s.data.count dq ∧
    (escapeHtml s).data.count sq = s.data.count sq ∧
    ((∀ c ∈ s.data, c ≠ '&' ∧ c ≠ nbspChar ∧ c ≠ '<' ∧ c ≠ '>') → escapeHtml s = s) := by
  refine ⟨decodeChars_escapeChars s.data, escapeChars_no_angle s.data,
    count_escapeChars_dq s.data, count_escapeChars_sq s.data, fun h => ?_⟩
  show String.mk (escapeChars s.data) = s
  rw [escapeChars_id s.data h]

/-- Witness for C9 on the two-character string made of a double and a
single quote: it round-trips, is returned unchanged, and its double quote
survives escaping. -/
theorem c9_witness :
    decodeChars (escapeHtml (String.mk [dq, sq])).data = (String.mk [dq, sq]).data ∧
    escapeHtml (String.mk [dq, sq]) = String.mk [dq, sq] ∧
    dq ∈ (escapeHtml (String.mk [dq, sq])).data ∧ dq ≠ '<' ∧ dq ≠ '>' := by
  refine ⟨(c9_escapeHtml_text_serialization (String.mk [dq, sq])).1,
    (c9_escapeHtml_text_serialization (String.mk [dq, sq])).2.2.2.2 (by decide),
    by decide, ?_, ?_⟩
  · exact ((c9_escapeHtml_text_serialization (String.mk [dq, sq])).2.1 dq (by decide)).1
  · exact ((c9_escapeHtml_text_serialization (String.mk [dq, sq])).2.1 dq (by decide)).2

/-- C1 at its failing input: the image value made of a double quote, an
onerror attribute and its handler contains no angle bracket, so escapeHtml
returns it unchanged; interpolated by loadFeaturedArt into the
double-quoted src attribute position, the resulting markup parses as an
extra onerror attribute with the attacker handler as its value -- the
rendered output treats part of the field as interpreted (executable)
markup, not literal text, refuting C1 for quoted attribute positions. -/
theorem c1_escapeHtml_attribute_injection :
    escapeHtml quoteBreakArt.image = quoteBreakArt.image ∧
    parseAttrs (imgCardAttrs quoteBreakArt) =
      [("src", ""), ("onerror", "alert(1)"), ("alt", "x")] ∧
    ("onerror", "alert(1)") ∈ parseAttrs (imgCardAttrs quoteBreakArt) ∧
    '<' ∉ quoteBreakArt.image.data ∧ '>' ∉ quoteBreakArt.image.data :=
  ⟨by decide, by decide, by decide, by decide, by decide⟩

theorem enumFrom_take {a : Type _} (l : List a) (k d : Nat) :
    (List.enumFrom k l).take d = List.enumFrom k (l.take d) := by
  induction l generalizing k d with
  | nil => simp
  | cons x l ih =>
    cases d with
    | zero => simp
    | succ d => simp [List.enumFrom, ih]

theorem enumFrom_filter_le {a : Type _} (l : List a) (k d : Nat) :
    (List.enumFrom k l).filter (fun p => decide (k + d ≤ p.1)) =
      (List.enumFrom k l).drop d := by
  induction l generalizing k d with
  | nil => simp
  | cons x l ih =>
    cases d with
    | zero =>
      rw [List.drop_zero]
      apply List.filter_eq_self.mpr
      intro p hp
      have := List.le_fst_of_mem_enumFrom hp
      simp only [decide_eq_true_eq]
      omega
    | succ d =>
      simp only [List.enumFrom, List.filter_cons, List.drop_succ_cons]
      have hh : (decide (k + (d + 1) ≤ (k, x).1)) = false := by
        simp only [decide_eq_false_iff_not]
        omega
      rw [hh]
      simp only [Bool.false_eq_true, if_false]
      simp only [show k + (d + 1) = (k + 1) + d from by omega]
      exact ih (k + 1) d

theorem enumFrom_filter_lt {a : Type _} (l : List a) (k d : Nat) :
    (List.enumFrom k l).filter (fun p => decide (p.1 < k + d)) =
      (List.enumFrom k l).take d := by
  induction l generalizing k d with
  | nil => simp
  | cons x l ih =>
    cases d with
    | zero =>
      rw [List.take_zero]
      apply List.filter_eq_nil_iff.mpr
      intro p hp
      have := List.le_fst_of_mem_enumFrom hp
      simp only [decide_eq_true_eq]
      omega
    | succ d =>
      simp only [List.enumFrom, List.filter_cons, List.take_succ_cons]
      have hh : (decide ((k, x).1 < k + (d + 1))) = true := by
        simp only [decide_eq_true_eq]
        omega
      rw [hh]
      simp only [if_true]
      simp only [show k + (d + 1) = (k + 1) + d from by omega]
      rw [ih (k + 1) d]

theorem enum_take {a : Type _} (l : List a) (d : Nat) :
    l.enum.take d = (l.take d).enum :=
  enumFrom_take l 0 d

theorem enum_filter_le {a : Type _} (l : List a) (d : Nat) :
    l.enum.filter (fun p => decide (d ≤ p.1)) = l.enum.drop d := by
  have h := enumFrom_filter_le l 0 d
  rw [show l.enum = List.enumFrom 0 l from rfl]
  simpa using h

theorem enum_filter_lt {a : Type _} (l : List a) (d : Nat) :
    l.enum.filter (fun p => decide (p.1 < d)) = (l.take d).enum := by
  have h := enumFrom_filter_lt l 0 d
  rw [enumFrom_take] at h
  rw [show l.enum = List.enumFrom 0 l from rfl,
    show (l.take d).enum = List.enumFrom 0 (l.take d) from rfl]
  simpa using h

theorem take_min_length {a : Type _} (l : List a) (n : Nat) :
    l.take (min n l.length) = l.take n := by
  rcases le_total n l.length with h | h
  · rw [min_eq_left h]
  · rw [min_eq_right h, List.take_length, List.take_of_length_le h]

theorem take_enum_append {a : Type _} (l : List a) (n m : Nat) (h : n ≤ m) :
    (l.take n).enum ++ (l.take m).enum.filter (fun p => decide (n ≤ p.1)) =
      (l.take m).enum := by
  rw [enum_filter_le]
  have h1 : (l.take m).enum.take n = (l.take n).enum := by
    rw [enum_take, List.take_take, min_eq_left h]
  rw [← h1, List.take_append_drop]

theorem loadCodeProjects_displayedCount (ps : List Project) (b : Bool) (s : GridState) :
    (loadCodeProjects ps b s).displayedCount = s.displayedCount := rfl

theorem loadCodeProjects_loadMoreHidden (ps : List Project) (b : Bool) (s : GridState) :
    (loadCodeProjects ps b s).loadMoreHidden = decide (s.displayedCount ≥ ps.length) := rfl

theorem loadCodeProjects_grid_initial (ps : List Project) (s : GridState) :
    (loadCodeProjects ps true s).grid = (ps.take s.displayedCount).enum := by
  simp [loadCodeProjects]

theorem loadCodeProjects_grid_increment (ps : List Project) (s : GridState) :
    (loadCodeProjects ps false s).grid =
      s.grid ++ (ps.take s.displayedCount).enum.filter
        (fun p => decide (s.displayedCount - projectsPerLoad ≤ p.1)) := by
  simp [loadCodeProjects]

theorem afterClicks_displayedCount (ps : List Project) (n : Nat) :
    (afterClicks ps n).displayedCount = 6 + 6 * n := by
  induction n with
  | zero => rfl
  | succ n ih =>
    show (clickLoadMore ps (afterClicks ps n)).displayedCount = _
    rw [clickLoadMore, loadCodeProjects_displayedCount]
    show (afterClicks ps n).displayedCount + projectsPerLoad = 6 + 6 * (n + 1)
    rw [ih, projectsPerLoad]
    omega

theorem afterClicks_grid (ps : List Project) (n : Nat) :
    (afterClicks ps n).grid = (ps.take (6 + 6 * n)).enum := by
  induction n with
  | zero =>
    show (initLoad ps).grid = _
    rw [initLoad, loadCodeProjects_grid_initial]
    rfl
  | succ n ih =>
    show (clickLoadMore ps (afterClicks ps n)).grid = _
    rw [clickLoadMore, loadCodeProjects_grid_increment]
    simp only [afterClicks_displayedCount, ih, projectsPerLoad]
    have e1 : 6 + 6 * n + 6 - 6 = 6 + 6 * n := by omega
    have e2 : 6 + 6 * (n + 1) = 6 + 6 * n + 6 := by omega
    rw [e1, e2]
    exact take_enum_append ps (6 + 6 * n) (6 + 6 * n + 6) (by omega)

theorem afterClicks_hidden (ps : List Project) (n : Nat) :
    (afterClicks ps n).loadMoreHidden =
      decide (ps.length ≤ (afterClicks ps n).displayedCount) := by
  cases n with
  | zero => rfl
  | succ n => rfl

/-- C2: for every project catalog and every number n of load-more
activations, `displayedProjectCount` equals 6 + 6n, the number of rendered
project cards equals min(displayedCount, total), and the load-more control
is hidden exactly when the rendered count equals the total, equivalently
exactly when displayedCount is at least the total. -/
theorem c2_pagination_counts (ps : List Project) (n : Nat) :
    (afterClicks ps n).displayedCount = 6 + 6 * n ∧
    (afterClicks ps n).grid.length =
      min (afterClicks ps n).displayedCount ps.length ∧
    ((afterClicks ps n).loadMoreHidden = true ↔
      (afterClicks ps n).grid.length = ps.length) ∧
    ((afterClicks ps n).loadMoreHidden = true ↔
      ps.length ≤ (afterClicks ps n).displayedCount) := by
  have hd := afterClicks_displayedCount ps n
  have hg := afterClicks_grid ps n
  have hh := afterClicks_hidden ps n
  have hlen : (afterClicks ps n).grid.length =
      min (afterClicks ps n).displayedCount ps.length := by
    rw [hg, List.enum_length, List.length_take, hd]
  refine ⟨hd, hlen, ?_, ?_⟩
  · rw [hh, hlen]
    simp only [decide_eq_true_eq]
    omega
  · rw [hh]
    simp only [decide_eq_true_eq]

/-- C3: an incremental call appends exactly the projects with index at
least displayedCount - projectsPerLoad and below min(displayedCount, total)
to the existing grid; a full reset clears the grid and renders exactly the
indices below min(displayedCount, total); at the initial value
displayedCount = 6 the append predicate admits every rendered item, so the
two branches build the same grid. -/
theorem c3_render_branches (ps : List Project) (s : GridState) :
    ((loadCodeProjects ps false s).grid =
      s.grid ++ ps.enum.filter
        (fun p => decide (s.displayedCount - projectsPerLoad ≤ p.1 ∧
          p.1 < min s.displayedCount ps.length))) ∧
    ((loadCodeProjects ps true s).grid =
      ps.enum.filter (fun p => decide (p.1 < min s.displayedCount ps.length))) ∧
    (s.displayedCount = 6 →
      (loadCodeProjects ps true s).grid =
        (loadCodeProjects ps false { s with grid := [] }).grid) := by
  have h2 : ps.enum.filter
      (fun p => decide (p.1 < min s.displayedCount ps.length)) =
      (ps.take s.displayedCount).enum := by
    rw [enum_filter_lt, take_min_length]
  refine ⟨?_, ?_, ?_⟩
  · rw [loadCodeProjects_grid_increment]
    have h1 : ps.enum.filter
        (fun p => decide (s.displayedCount - projectsPerLoad ≤ p.1 ∧
          p.1 < min s.displayedCount ps.length)) =
        (ps.take s.displayedCount).enum.filter
          (fun p => decide (s.displayedCount - projectsPerLoad ≤ p.1)) := by
      simp only [Bool.decide_and]
      rw [← List.filter_filter, h2]
    rw [h1]
  · rw [loadCodeProjects_grid_initial, h2]
  · intro h6
    rw [loadCodeProjects_grid_initial, loadCodeProjects_grid_increment]
    simp only [h6, projectsPerLoad]
    have hp : (fun p : Nat × Project => decide (6 - 6 ≤ p.1)) =
        (fun _ : Nat × Project => true) := by
      funext p
      simp
    rw [hp, List.filter_true, List.nil_append]

/-- Witness for C3 at the ten-project catalog right after the initial
load, where displayedCount is 6. -/
theorem c3_render_branches_witness :
    (initLoad tenProjects).displayedCount = 6 ∧
    (loadCodeProjects tenProjects true (initLoad tenProjects)).grid =
      (loadCodeProjects tenProjects false
        { initLoad tenProjects with grid := [] }).grid :=
  ⟨by decide, (c3_render_branches tenProjects (initLoad tenProjects)).2.2 (by decide)⟩

/-- C4 counterexample: from the reachable state right after the initial
load of a ten-project catalog, one legal load-more activation (the control
is visible, since 6 < 10) raises displayedCount to 12, which exceeds the
total project count 10. So displayedCount is not upper-bounded by the
total. -/
theorem c4_counterexample_count_exceeds_total :
    Reachable tenProjects (clickLoadMore tenProjects (initLoad tenProjects)) ∧
    (clickLoadMore tenProjects (initLoad tenProjects)).displayedCount = 12 ∧
    tenProjects.length = 10 ∧
    ¬((clickLoadMore tenProjects (initLoad tenProjects)).displayedCount ≤
      tenProjects.length) :=
  ⟨Reachable.click Reachable.init (by decide), by decide, by decide, by decide⟩

theorem reachable_exists_afterClicks (ps : List Project) (s : GridState)
    (h : Reachable ps s) : ∃ n, s = afterClicks ps n := by
  induction h with
  | init => exact ⟨0, rfl⟩
  | click hr hfalse ih =>
    obtain ⟨n, rfl⟩ := ih
    exact ⟨n + 1, rfl⟩

theorem reachable_dc_bound (ps : List Project) (s : GridState)
    (h : Reachable ps s) :
    s.displayedCount = 6 ∨ s.displayedCount ≤ ps.length + 5 := by
  induction h with
  | init => exact Or.inl rfl
  | click hr hfalse ih =>
    right
    rename_i t
    obtain ⟨n, rfl⟩ := reachable_exists_afterClicks _ _ hr
    rw [afterClicks_hidden] at hfalse
    simp only [decide_eq_false_iff_not, not_le] at hfalse
    show (clickLoadMore ps (afterClicks ps n)).displayedCount ≤ ps.length + 5
    rw [clickLoadMore, loadCodeProjects_displayedCount]
    show (afterClicks ps n).displayedCount + projectsPerLoad ≤ ps.length + 5
    rw [projectsPerLoad]
    omega

/-- C4 amended: displayedCount starts at 6, increments by exactly 6 per
activation (hence is monotonically non-decreasing along every event
sequence), and stays a positive multiple of 6; it is not bounded by the
total, but along reachable sequences it is either still 6 or at most
total + 5, and the rendered card count is bounded by the total. -/
theorem c4_amended_counter_invariants (ps : List Project) (s : GridState)
    (h : Reachable ps s) :
    (initLoad ps).displayedCount = 6 ∧
    (clickLoadMore ps s).displayedCount = s.displayedCount + 6 ∧
    6 ≤ s.displayedCount ∧
    s.displayedCount % 6 = 0 ∧
    (s.displayedCount = 6 ∨ s.displayedCount ≤ ps.length + 5) ∧
    s.grid.length ≤ ps.length := by
  have hb := reachable_dc_bound ps s h
  obtain ⟨n, rfl⟩ := reachable_exists_afterClicks ps s h
  have hd := afterClicks_displayedCount ps n
  have hg := afterClicks_grid ps n
  refine ⟨rfl, rfl, by omega, by omega, hb, ?_⟩
  rw [hg, List.enum_length, List.length_take]
  omega

/-- Witness for C4 amended at the initial load of the ten-project
catalog. -/
theorem c4_amended_witness :
    6 ≤ (initLoad tenProjects).displayedCount ∧
    (initLoad tenProjects).grid.length ≤ tenProjects.length :=
  ⟨(c4_amended_counter_invariants tenProjects (initLoad tenProjects)
      Reachable.init).2.2.1,
   (c4_amended_counter_invariants tenProjects (initLoad tenProjects)
      Reachable.init).2.2.2.2.2⟩

/-- C5: each gallery open builds the full gallery as heroImages followed by
artworks, so its length is the sum of the two lengths; one thumbnail is
created per item in that order; and clicking the thumbnail at position i
opens the lightbox with that same sequence and index i. -/
theorem c5_gallery_sequence (art : ArtCatalog) (s : LightboxState) (i : Nat)
    (h : i < (openGallery art).length) :
    (openGallery art).length = art.heroImages.length + art.artworks.length ∧
    (openGallery art).map GalleryThumb.item = fullGallery art ∧
    (clickGalleryThumb ((openGallery art).get ⟨i, h⟩) s).source = fullGallery art ∧
    (clickGalleryThumb ((openGallery art).get ⟨i, h⟩) s).index = (i : Int) ∧
    (clickGalleryThumb ((openGallery art).get ⟨i, h⟩) s).isOpen = true := by
  have hget : (openGallery art).get ⟨i, h⟩ =
      ⟨(fullGallery art).enum.get ⟨i, by simpa [openGallery] using h⟩ |>.2,
        fullGallery art,
        (fullGallery art).enum.get ⟨i, by simpa [openGallery] using h⟩ |>.1⟩ := by
    simp [openGallery]
  refine ⟨?_, ?_, ?_, ?_, rfl⟩
  · simp [openGallery, fullGallery, List.enum_length]
  · rw [openGallery, List.map_map]
    have : (GalleryThumb.item ∘ fun p : Nat × ArtItem =>
        GalleryThumb.mk p.2 (fullGallery art) p.1) = Prod.snd := by
      funext p
      rfl
    rw [this, List.enum_map_snd]
  · rw [hget]
    rfl
  · rw [hget]
    show ((((fullGallery art).enum.get ⟨i, _⟩).1 : Nat) : Int) = (i : Int)
    norm_cast
    have hi : i < (fullGallery art).enum.length := by
      simpa [openGallery, List.enum_length] using h
    simp [List.get_eq_getElem, List.getElem_enum]

/-- Witness for C5 at the spec scenario catalog (heroImages A, B, C and
artworks D, E) with the thumbnail at position 3. -/
theorem c5_gallery_sequence_witness :
    3 < (openGallery demoCatalog).length ∧
    (clickGalleryThumb ((openGallery demoCatalog).get ⟨3, by decide⟩)
      emptyLightbox).index = (3 : Int) ∧
    (clickGalleryThumb ((openGallery demoCatalog).get ⟨3, by decide⟩)
      emptyLightbox).source = fullGallery demoCatalog :=
  ⟨by decide,
   (c5_gallery_sequence demoCatalog emptyLightbox 3 (by decide)).2.2.2.1,
   (c5_gallery_sequence demoCatalog emptyLightbox 3 (by decide)).2.2.1⟩

/-- C6: on a source of length L at least 1 and index in [0, L), next moves
to (i + 1) mod L and previous to (i - 1 + L) mod L, both staying inside
[0, L); the two are mutually inverse (the walk is cyclic), and on a
one-item source both operations keep the index at 0. -/
theorem c6_lightbox_cyclic (s : LightboxState) (L : Int)
    (hL : L = (s.source.length : Int)) (h1 : 1 ≤ L)
    (hlo : 0 ≤ s.index) (hhi : s.index < L) :
    (nextImage s).index = (s.index + 1) % L ∧
    (prevImage s).index = (s.index - 1 + L) % L ∧
    (0 ≤ (nextImage s).index ∧ (nextImage s).index < L) ∧
    (0 ≤ (prevImage s).index ∧ (prevImage s).index < L) ∧
    (prevImage (nextImage s)).index = s.index ∧
    (nextImage (prevImage s)).index = s.index ∧
    (L = 1 → (nextImage s).index = 0 ∧ (prevImage s).index = 0) := by
  subst hL
  have hpos : (0 : Int) < (s.source.length : Int) := by omega
  have hne : ((s.source.length : Int)) ≠ 0 := by omega
  have hmod : (s.index + (s.source.length : Int)) % (s.source.length : Int) =
      s.index := by
    have hm := Int.add_mul_emod_self_left s.index (s.source.length : Int) 1
    rw [mul_one] at hm
    rw [hm, Int.emod_eq_of_lt hlo hhi]
  refine ⟨rfl, rfl,
    ⟨Int.emod_nonneg _ hne, Int.emod_lt_of_pos _ hpos⟩,
    ⟨Int.emod_nonneg _ hne, Int.emod_lt_of_pos _ hpos⟩, ?_, ?_, ?_⟩
  · show ((s.index + 1) % (s.source.length : Int) - 1 + (s.source.length : Int)) %
        (s.source.length : Int) = s.index
    have e1 : (s.index + 1) % (s.source.length : Int) - 1 + (s.source.length : Int) =
        (s.index + 1) % (s.source.length : Int) + ((s.source.length : Int) - 1) := by
      ring
    rw [e1, Int.emod_add_emod]
    have e2 : s.index + 1 + ((s.source.length : Int) - 1) =
        s.index + (s.source.length : Int) := by
      ring
    rw [e2, hmod]
  · show ((s.index - 1 + (s.source.length : Int)) % (s.source.length : Int) + 1) %
        (s.source.length : Int) = s.index
    rw [Int.emod_add_emod]
    have e2 : s.index - 1 + (s.source.length : Int) + 1 =
        s.index + (s.source.length : Int) := by
      ring
    rw [e2, hmod]
  · intro hone
    constructor
    · show (s.index + 1) % (s.source.length : Int) = 0
      rw [hone, Int.emod_one]
    · show (s.index - 1 + (s.source.length : Int)) % (s.source.length : Int) = 0
      rw [hone]
      simp [Int.emod_one]

/-- Witness for C6 on the one-item source: next and previous both keep the
index at 0. -/
theorem c6_lightbox_cyclic_witness :
    (nextImage oneItemLightbox).index = 0 ∧
    (prevImage oneItemLightbox).index = 0 :=
  (c6_lightbox_cyclic oneItemLightbox 1 (by decide) (by decide) (by decide)
    (by decide)).2.2.2.2.2.2 (by decide)

/-- C7: while the lightbox is closed, every key (Escape included) leaves
the state unchanged; while it is open, Escape closes it and the Right and
Left arrow keys run the next and previous navigation. -/
theorem c7_keyboard_gating (s : LightboxState) (key : String) :
    (s.isOpen = false → handleKeydown key s = s) ∧
    (s.isOpen = true →
      (handleKeydown "Escape" s = closeLightbox s ∧
       (handleKeydown "Escape" s).isOpen = false ∧
       handleKeydown "ArrowRight" s = nextImage s ∧
       handleKeydown "ArrowLeft" s = prevImage s)) := by
  constructor
  · intro h
    simp [handleKeydown, h]
  · intro h
    refine ⟨?_, ?_, ?_, ?_⟩ <;> simp [handleKeydown, h, closeLightbox]

/-- Witness for C7: Escape on the closed lightbox is a no-op; Escape on an
open lightbox closes it. -/
theorem c7_keyboard_gating_witness :
    handleKeydown "Escape" emptyLightbox = emptyLightbox ∧
    handleKeydown "Escape" oneItemLightbox = closeLightbox oneItemLightbox :=
  ⟨(c7_keyboard_gating emptyLightbox "Escape").1 (by decide),
   ((c7_keyboard_gating oneItemLightbox "Escape").2 (by decide)).1⟩

/-- C8 counterexample: on a page with no matching element, activating an
anchor with href "#missing" still suppresses the default jump (the handler
calls preventDefault before looking the target up), refuting the reading
that default navigation is suppressed only when a concrete target exists.
No scroll is issued. -/
theorem c8_counterexample_prevented_without_target :
    querySelectorTop emptyPage "#missing" = none ∧
    (handleAnchorClick emptyPage (some "#missing")).defaultPrevented = true ∧
    (handleAnchorClick emptyPage (some "#missing")).scrolled = none :=
  ⟨by decide, by decide, by decide⟩

/-- C8 amended: a missing href or one not starting with # is ignored
without suppressing the default jump; every #-prefixed href (a bare #, an
unresolvable target, or a resolvable one) suppresses the default jump; the
scroll happens only when the target exists, and then goes smoothly to the
target offsetTop minus the navbar height (0 when the navbar is absent). -/
theorem c8_amended_smooth_scroll (page : Page) (t : String) (top : Int) :
    (handleAnchorClick page none =
      { defaultPrevented := false, scrolled := none }) ∧
    (startsWithHash t = false →
      handleAnchorClick page (some t) =
        { defaultPrevented := false, scrolled := none }) ∧
    (handleAnchorClick page (some "#") =
      { defaultPrevented := true, scrolled := none }) ∧
    (startsWithHash t = true → t ≠ "#" → querySelectorTop page t = none →
      handleAnchorClick page (some t) =
        { defaultPrevented := true, scrolled := none }) ∧
    (startsWithHash t = true → t ≠ "#" → querySelectorTop page t = some top →
      handleAnchorClick page (some t) =
        { defaultPrevented := true,
          scrolled := some { top := top - page.navbarHeight.getD 0, behavior := "smooth" } }) := by
  refine ⟨rfl, ?_, ?_, ?_, ?_⟩
  · intro hf
    simp [handleAnchorClick, hf]
  · rfl
  · intro ht hne hq
    have hnn : ¬ (t = "" ∨ startsWithHash t = false) := by
      rintro (rfl | hf)
      · exact absurd ht (by decide)
      · rw [ht] at hf
        exact Bool.noConfusion hf
    simp [handleAnchorClick, hnn, hne, hq]
  · intro ht hne hq
    have hnn : ¬ (t = "" ∨ startsWithHash t = false) := by
      rintro (rfl | hf)
      · exact absurd ht (by decide)
      · rw [ht] at hf
        exact Bool.noConfusion hf
    simp [handleAnchorClick, hnn, hne, hq]

/-- Witness for C8 amended on a page with an 80px navbar and a section at
offsetTop 500: clicking "#about" suppresses the default jump and smoothly
scrolls to 420. -/
theorem c8_amended_smooth_scroll_witness :
    startsWithHash "#about" = true ∧
    querySelectorTop aboutPage "#about" = some 500 ∧
    handleAnchorClick aboutPage (some "#about") =
      { defaultPrevented := true,
        scrolled := some { top := 420, behavior := "smooth" } } :=
  ⟨by decide, by decide,
   (c8_amended_smooth_scroll aboutPage "#about" 500).2.2.2.2
     (by decide) (by decide) (by decide)⟩

/-- C10 counterexample: when art.json and project.json both parse but
links.json fails to parse, projectData does not retain its previous value;
it has already been replaced by the newly parsed catalog. The downstream
renderers still do not run and the failure only logs. -/
theorem c10_counterexample_projectData_replaced :
    (loadData emptyApp (Except.ok parsedArt) (Except.ok parsedProjects)
      (Except.error "SyntaxError")).state.projectData ≠ emptyApp.projectData ∧
    (loadData emptyApp (Except.ok parsedArt) (Except.ok parsedProjects)
      (Except.error "SyntaxError")).state.projectData = parsedProjects ∧
    (loadData emptyApp (Except.ok parsedArt) (Except.ok parsedProjects)
      (Except.error "SyntaxError")).invoked = [] ∧
    (loadData emptyApp (Except.ok parsedArt) (Except.ok parsedProjects)
      (Except.error "SyntaxError")).errorLogged = true :=
  ⟨by decide, by decide, by decide, by decide⟩

/-- C10 amended: loadData is not atomic. If art.json fails, nothing is
replaced; if art.json parses and project.json fails, artData has been
replaced while projectData retains its previous value; if only links.json
fails, both artData and projectData have been replaced. In every failure
case no downstream function is invoked and the only effect is the
diagnostic log; on full success both globals are replaced and the four
downstream calls run in order. -/
theorem c10_amended_loadData_branches (s : AppState) (a : ArtCatalog)
    (p : ProjectCatalog) (l : LinksConfig) (e : String)
    (projRes : Except String ProjectCatalog)
    (linksRes : Except String LinksConfig) :
    (loadData s (Except.error e) projRes linksRes =
      { state := s, invoked := [], errorLogged := true }) ∧
    (loadData s (Except.ok a) (Except.error e) linksRes =
      { state := { artData := a, projectData := s.projectData },
        invoked := [], errorLogged := true }) ∧
    (loadData s (Except.ok a) (Except.ok p) (Except.error e) =
      { state := { artData := a, projectData := p },
        invoked := [], errorLogged := true }) ∧
    (loadData s (Except.ok a) (Except.ok p) (Except.ok l) =
      { state := { artData := a, projectData := p },
        invoked := ["updateLinks", "loadCodeProjects", "loadFeaturedArt",
          "animateHero"],
        errorLogged := false }) :=
  ⟨rfl, rfl, rfl, rfl⟩

/-- Witness for C2 at the ten-project catalog after one activation:
displayedCount 12, all ten cards rendered, control hidden. -/
theorem c2_pagination_counts_witness :
    (afterClicks tenProjects 1).displayedCount = 12 ∧
    (afterClicks tenProjects 1).grid.length = 10 ∧
    (afterClicks tenProjects 1).loadMoreHidden = true := by
  have h := c2_pagination_counts tenProjects 1
  have hlen : tenProjects.length = 10 := by decide
  have h1 := h.1
  have h2 := h.2.1
  exact ⟨by omega, by omega, (h.2.2.2).mpr (by omega)⟩

/-- Witness for C10 amended: with the empty starting globals, a parsed art
catalog and a failing project.json parse, artData is replaced, projectData
is kept, nothing downstream runs and the error is logged. -/
theorem c10_amended_loadData_branches_witness :
    loadData emptyApp (Except.ok parsedArt) (Except.error "SyntaxError")
        (Except.ok { github := "g", resume := "r" }) =
      { state := { artData := parsedArt, projectData := emptyApp.projectData },
        invoked := [], errorLogged := true } :=
  (c10_amended_loadData_branches emptyApp parsedArt parsedProjects
    { github := "g", resume := "r" } "SyntaxError"
    (Except.error "SyntaxError")
    (Except.ok { github := "g", resume := "r" })).2.1

end Portfolio
